import Mathlib

/-!
# Verification of the network-monitor speed-test daemon

Shallow embedding of the monitoring daemon's core
(`src/speedtest-service.ts`: scheduling loop, retry/backoff, circuit
breaker, health reporter, probe-output parsing) together with its
configuration loading (`src/config.ts` and the zod `configSchema` of
`apps/network-monitor/src/config.ts`), and proofs of the specified
properties.

Conventions: instants and durations are natural numbers of milliseconds;
TypeScript numbers that carry measurements (ping, jitter, packet loss,
bandwidth) are rationals; a possibly-`NaN` number is an `Option`;
fallible operations return `Except`.  Effects of the loop (subprocess
spawns, sleeps, database writes, process exit) are recorded as an
explicit event trace.
-/

namespace NetworkMonitor

/-- Service configuration (`ServiceConfig` in `src/types.d.ts`), numeric
fields only — `dbPath` and `verbose` play no role in the verified
properties.  All values are milliseconds except the two counters. -/
structure ServiceConfig where
  testInterval : Nat
  maxRetries : Nat
  backoffDelay : Nat
  maxBackoffDelay : Nat
  circuitBreakerThreshold : Nat
  circuitBreakerTimeout : Nat
deriving Repr, DecidableEq

/-- Mutable service state (`ServiceState` in `src/types.d.ts`,
initialised in the `SpeedTestService` constructor).  `db` records
whether a database handle is held (`state.db !== null`). -/
structure ServiceState where
  isRunning : Bool
  lastTestTime : Nat
  consecutiveFailures : Nat
  isCircuitBroken : Bool
  circuitBreakerResetTime : Option Nat
  db : Bool
deriving Repr, DecidableEq

/-- The state built by the `SpeedTestService` constructor
(`speedtest-service.ts` lines 30-37). -/
def initialState : ServiceState :=
  { isRunning := false
    lastTestTime := 0
    consecutiveFailures := 0
    isCircuitBroken := false
    circuitBreakerResetTime := none
    db := false }

/-- State after `initialize()` succeeds (`speedtest-service.ts` lines
43-59): a database handle is acquired and `isRunning` is set. -/
def initializedState : ServiceState :=
  { initialState with isRunning := true, db := true }

/-- `determineConnectionQuality` (`speedtest-service.ts` lines 259-264):
fixed threshold tiers, first match wins. -/
def determineConnectionQuality (ping jitter packetLoss : ℚ) : String :=
  if ping < 20 ∧ jitter < 5 ∧ packetLoss < 1/10 then "excellent"
  else if ping < 50 ∧ jitter < 15 ∧ packetLoss < 1 then "good"
  else if ping < 100 ∧ jitter < 30 ∧ packetLoss < 5/2 then "fair"
  else "poor"

/-- `determineHealthStatus` (`speedtest-service.ts` lines 226-231). -/
def determineHealthStatus (s : ServiceState) : String :=
  if s.isRunning = false then "unhealthy"
  else if s.isCircuitBroken = true then "unhealthy"
  else if 0 < s.consecutiveFailures then "degraded"
  else "healthy"

/-- ASCII lowercasing of one character, as `toLowerCase` does on the
ASCII interface names involved. -/
def lowerChar (c : Char) : Char :=
  if 65 ≤ c.toNat ∧ c.toNat ≤ 90 then Char.ofNat (c.toNat + 32) else c

/-- The character list of `s.toLowerCase()`. -/
def lowerStr (s : String) : List Char := s.toList.map lowerChar

/-- JavaScript `s.toLowerCase().includes(pat)` for an ASCII pattern:
substring containment after lowercasing. -/
def strIncludes (s pat : String) : Bool :=
  decide (pat.toList <:+: lowerStr s)

/-- `detectNetworkType` (`speedtest-service.ts` lines 236-254).  The
entries of `networkInterfaces()` are modelled as a list of
(name, addrs-present) pairs in enumeration order; entries whose address
list is absent are skipped (`if (!addrs) continue`). -/
def detectNetworkType : List (String × Bool) → String
  | [] => "unknown"
  | (name, addrs) :: rest =>
    if addrs = false then detectNetworkType rest
    else if strIncludes name "wlan" || strIncludes name "wifi" then "wifi"
    else if strIncludes name "eth" || strIncludes name "enp" then "ethernet"
    else if strIncludes name "wwan" || strIncludes name "cellular" then "cellular"
    else detectNetworkType rest

/-- The category a single interface name matches, if any: the keyword
tests of `detectNetworkType` applied to one name. -/
def nameCategory (name : String) : Option String :=
  if strIncludes name "wlan" || strIncludes name "wifi" then some "wifi"
  else if strIncludes name "eth" || strIncludes name "enp" then some "ethernet"
  else if strIncludes name "wwan" || strIncludes name "cellular" then some "cellular"
  else none

/-- Observable effects of the loop, recorded as a trace: a call of
`executeSpeedTest` (with its 0-based index inside the cycle), a
`sleep(ms)`, a `storeResult` write, a `closeDatabase` close, and
`process.exit(code)`. -/
inductive Event where
  | execCall (idx : Nat)
  | sleep (ms : Nat)
  | store
  | closeDb
  | processExit (code : Nat)
deriving Repr, DecidableEq

/-- The delays of a trace, in order. -/
def sleepsOf (evs : List Event) : List Nat :=
  evs.filterMap fun e => match e with | .sleep d => some d | _ => none

/-- The number of `executeSpeedTest` calls recorded in a trace. -/
def execCallCount (evs : List Event) : Nat :=
  (evs.filter fun e => match e with | .execCall _ => true | _ => false).length

/-- `handleError` (`speedtest-service.ts` lines 197-206): increment
`consecutiveFailures`; once it reaches `circuitBreakerThreshold`, open
the circuit and schedule its reset at `now + circuitBreakerTimeout`. -/
def handleError (cfg : ServiceConfig) (now : Nat) (s : ServiceState) : ServiceState :=
  let s1 := { s with consecutiveFailures := s.consecutiveFailures + 1 }
  if cfg.circuitBreakerThreshold ≤ s1.consecutiveFailures then
    { s1 with
      isCircuitBroken := true
      circuitBreakerResetTime := some (now + cfg.circuitBreakerTimeout) }
  else s1

/-- The backoff delay computed before the `n`-th retry (1-indexed), from
`runTest` lines 135-138: `min(backoffDelay * 2^(n-1), maxBackoffDelay)`. -/
def backoff (cfg : ServiceConfig) (n : Nat) : Nat :=
  min (cfg.backoffDelay * 2 ^ (n - 1)) cfg.maxBackoffDelay

/-- The retry loop of `runTest` (`speedtest-service.ts` lines 116-142):
`while (retryCount <= maxRetries && !success)`.  `exec i` tells whether
the `i`-th `executeSpeedTest` call of this cycle succeeds, and `times i`
is `Date.now()` observed right after that call.  Returns the updated
state, the `success` flag, and the trace.  `fuel` bounds the recursion;
the caller passes `maxRetries + 1`, which the loop condition never
exhausts (the zero-fuel exit coincides with the loop-condition exit). -/
def runTestLoop (cfg : ServiceConfig) (exec : Nat → Bool) (times : Nat → Nat) :
    Nat → Nat → Nat → ServiceState → ServiceState × Bool × List Event
  | 0, _, _, s => (s, false, [])
  | fuel + 1, retryCount, callIdx, s =>
    if retryCount ≤ cfg.maxRetries then
      if exec callIdx then
        ({ s with lastTestTime := times callIdx, consecutiveFailures := 0 },
          true, [Event.execCall callIdx, Event.store])
      else
        let rc := retryCount + 1
        let pre := if rc ≤ cfg.maxRetries then [Event.sleep (backoff cfg rc)] else []
        let rest := runTestLoop cfg exec times fuel rc (callIdx + 1) s
        (rest.1, rest.2.1, Event.execCall callIdx :: (pre ++ rest.2.2))
    else (s, false, [])

/-- `runTest` (`speedtest-service.ts` lines 113-147): early return when
no database handle is held; otherwise the retry loop, then the
circuit-breaker failure handler when the whole cycle failed.  `now` is
`Date.now()` at the point `handleError` runs. -/
def runTest (cfg : ServiceConfig) (exec : Nat → Bool) (times : Nat → Nat)
    (now : Nat) (s : ServiceState) : ServiceState × List Event :=
  if s.db = false then (s, [])
  else
    let r := runTestLoop cfg exec times (cfg.maxRetries + 1) 0 0 s
    if r.2.1 then (r.1, r.2.2) else (handleError cfg now r.1, r.2.2)

/-- `closeDatabase` (`src/db.ts` lines 107-115): closes the handle when
one is held, otherwise a no-op. -/
def closeDatabase (db : Bool) : List Event :=
  if db then [Event.closeDb] else []

/-- `shutdown` (`speedtest-service.ts` lines 276-281): clear `isRunning`,
close the database, then `process.exit(0)`. -/
def shutdown (s : ServiceState) : ServiceState × List Event :=
  ({ s with isRunning := false }, closeDatabase s.db ++ [Event.processExit 0])

/-! ## Probe output parsing (`executeSpeedTest`) -/

/-- `ping` object of the speedtest JSON (`SpeedTestData` in
`src/types.d.ts`); each field may be absent. -/
structure PingData where
  latency : Option ℚ
  jitter : Option ℚ
deriving Repr, DecidableEq

/-- `download`/`upload` object of the speedtest JSON. -/
structure BandwidthData where
  bandwidth : Option ℚ
deriving Repr, DecidableEq

/-- `server` object of the speedtest JSON. -/
structure ServerData where
  id : Option Int
  name : Option String
  country : Option String
deriving Repr, DecidableEq

/-- `interface` object of the speedtest JSON. -/
structure InterfaceData where
  name : Option String
  externalIp : Option String
deriving Repr, DecidableEq

/-- A parsed speedtest JSON document; every part may be absent. -/
structure SpeedTestData where
  ping : Option PingData
  download : Option BandwidthData
  upload : Option BandwidthData
  packetLoss : Option ℚ
  isp : Option String
  interface : Option InterfaceData
  server : Option ServerData
deriving Repr, DecidableEq

/-- The standard-output text of the probe subprocess, as seen by
`executeSpeedTest`: empty (falsy), text `JSON.parse` rejects, or text
parsing to a JSON document. -/
inductive ProbeOutput where
  | empty
  | invalidJson (raw : String)
  | json (d : SpeedTestData)
deriving Repr, DecidableEq

/-- A stored probe measurement (`SpeedTestResult` in `src/types.d.ts`),
as built by `executeSpeedTest` lines 172-191. -/
structure SpeedTestResult where
  timestamp : String
  ping : ℚ
  download : ℚ
  upload : ℚ
  network_ssid : Option String
  network_type : String
  ip_address : String
  server_id : String
  server_location : String
  isp : String
  latency_jitter : ℚ
  packet_loss : ℚ
  connection_quality : String
  device_name : String
deriving Repr, DecidableEq

/-- The Mbps conversion of `executeSpeedTest` lines 175-176:
`data.download?.bandwidth ? (data.download.bandwidth * 8) / 1e6 : 0` —
a JavaScript truthiness test, so an absent or zero bandwidth yields 0. -/
def bandwidthToMbps (b : Option BandwidthData) : ℚ :=
  match b.bind BandwidthData.bandwidth with
  | some v => if v = 0 then 0 else v * 8 / 1000000
  | none => 0

/-- `executeSpeedTest` (`speedtest-service.ts` lines 152-192).  The
subprocess is abstracted by its exit code, stderr and stdout; `nowIso`
is `new Date().toISOString()`, `interfaces` the OS interface table seen
by `detectNetworkType`, `host` the value of `hostname()`.  A non-zero
exit, empty stdout, or unparsable stdout raises (here: `Except.error`);
otherwise every missing field degrades to a default. -/
def executeSpeedTest (exitCode : Int) (stderr : String) (output : ProbeOutput)
    (nowIso : String) (interfaces : List (String × Bool)) (host : String) :
    Except String SpeedTestResult :=
  if exitCode ≠ 0 then
    .error ("Speedtest failed with exit code " ++ toString exitCode ++ ": " ++ stderr)
  else match output with
  | .empty => .error "No output received from speedtest command"
  | .invalidJson _ => .error "JSON Parse error"
  | .json data =>
    .ok
      { timestamp := nowIso
        ping := ((data.ping.bind PingData.latency).getD 0)
        download := bandwidthToMbps data.download
        upload := bandwidthToMbps data.upload
        network_ssid := data.interface.bind InterfaceData.name
        network_type := detectNetworkType interfaces
        ip_address := (data.interface.bind InterfaceData.externalIp).getD "unknown"
        server_id := ((data.server.bind ServerData.id).map toString).getD "unknown"
        server_location :=
          ((data.server.bind ServerData.name).getD "unknown") ++ ", " ++
            ((data.server.bind ServerData.country).getD "unknown")
        isp := data.isp.getD "unknown"
        latency_jitter := ((data.ping.bind PingData.jitter).getD 0)
        packet_loss := (data.packetLoss.getD 0)
        connection_quality :=
          determineConnectionQuality
            ((data.ping.bind PingData.latency).getD 0)
            ((data.ping.bind PingData.jitter).getD 0)
            (data.packetLoss.getD 0)
        device_name := host }

/-! ## Health reporting -/

/-- Model of ECMAScript `Date.prototype.toISOString` for a non-negative
epoch-millisecond value: Gregorian calendar rendering as
`YYYY-MM-DDTHH:mm:ss.sssZ`.  Used by `getHealth` line 216
(`new Date(this.state.lastTestTime).toISOString()`). -/
def isLeapYear (y : Nat) : Bool :=
  (y % 4 = 0 && y % 100 ≠ 0) || y % 400 = 0

/-- Days in a Gregorian year. -/
def daysInYear (y : Nat) : Nat :=
  if isLeapYear y then 366 else 365

/-- Resolve a day count since 1970-01-01 into (year, day-of-year). -/
def yearOfDays (y days : Nat) : Nat × Nat :=
  if _h : days < daysInYear y then (y, days)
  else yearOfDays (y + 1) (days - daysInYear y)
termination_by days
decreasing_by
  have h365 : 365 ≤ daysInYear y := by
    unfold daysInYear; split <;> omega
  omega

/-- Month lengths, January first. -/
def monthLengths (leap : Bool) : List Nat :=
  [31, if leap then 29 else 28, 31, 30, 31, 30, 31, 31, 30, 31, 30, 31]

/-- Resolve a day-of-year into (month, day-of-month), both 1-based. -/
def monthOfDays : Nat → List Nat → Nat → Nat × Nat
  | m, [], days => (m, days + 1)
  | m, len :: rest, days =>
    if days < len then (m, days + 1) else monthOfDays (m + 1) rest (days - len)

/-- Zero-pad to two digits. -/
def pad2 (n : Nat) : String :=
  if n < 10 then "0" ++ toString n else toString n

/-- Zero-pad to three digits. -/
def pad3 (n : Nat) : String :=
  if n < 10 then "00" ++ toString n
  else if n < 100 then "0" ++ toString n
  else toString n

/-- `Date.prototype.toISOString` on a non-negative epoch-millisecond
instant. -/
def toISOString (ms : Nat) : String :=
  let days := ms / 86400000
  let msOfDay := ms % 86400000
  let yd := yearOfDays 1970 days
  let md := monthOfDays 1 (monthLengths (isLeapYear yd.1)) yd.2
  toString yd.1 ++ "-" ++ pad2 md.1 ++ "-" ++ pad2 md.2 ++ "T" ++
    pad2 (msOfDay / 3600000) ++ ":" ++ pad2 (msOfDay / 60000 % 60) ++ ":" ++
    pad2 (msOfDay / 1000 % 60) ++ "." ++ pad3 (msOfDay % 1000) ++ "Z"

/-- The health object returned by `getHealth`
(`speedtest-service.ts` lines 211-221). -/
structure HealthStatus where
  status : String
  lastTestTime : String
  consecutiveFailures : Nat
  isCircuitBroken : Bool
  uptime : Int
deriving Repr, DecidableEq

/-- `getHealth` (`speedtest-service.ts` lines 211-221): a total function
of the state — it never raises.  `now` is `Date.now()` and `startTime`
the construction instant. -/
def getHealth (s : ServiceState) (now startTime : Nat) : HealthStatus :=
  { status := determineHealthStatus s
    lastTestTime := toISOString s.lastTestTime
    consecutiveFailures := s.consecutiveFailures
    isCircuitBroken := s.isCircuitBroken
    uptime := (now : Int) - (startTime : Int) }

/-! ## Configuration loading -/

/-- Model of JavaScript `parseInt(s, 10)`: skip leading whitespace, an
optional sign, then read leading decimal digits; `none` models `NaN`
(no digits).  Trailing non-digit text is ignored. -/
def parseIntJS (s : String) : Option Int :=
  let cs := s.toList.dropWhile fun c => c.toNat ≤ 32
  let signRest : Int × List Char :=
    match cs with
    | '-' :: r => (-1, r)
    | '+' :: r => (1, r)
    | r => (1, r)
  let ds := signRest.2.takeWhile Char.isDigit
  if ds.isEmpty then none
  else some (signRest.1 * ((ds.foldl (fun acc c => acc * 10 + (c.toNat - 48)) 0 : Nat) : Int))

/-- The `SPEEDTEST_*` environment variables read by `loadConfig`. -/
structure EnvVars where
  dbPath : Option String
  verbose : Option String
  testInterval : Option String
  maxRetries : Option String
  backoffDelay : Option String
  maxBackoffDelay : Option String
  circuitBreakerThreshold : Option String
  circuitBreakerTimeout : Option String
deriving Repr, DecidableEq

/-- The object `loadConfig` of `src/config.ts` returns: numeric fields
are raw `parseInt` results, so `none` (`NaN`) and negative values pass
through. -/
structure RawConfig where
  dbPath : String
  verbose : Bool
  testInterval : Option Int
  maxRetries : Option Int
  backoffDelay : Option Int
  maxBackoffDelay : Option Int
  circuitBreakerThreshold : Option Int
  circuitBreakerTimeout : Option Int
deriving Repr, DecidableEq

/-- `loadConfig` of the daemon (`src/config.ts` lines 6-17): reads the
environment with defaults and `parseInt`s every numeric field.  It is a
total function — no validation is performed and nothing is rejected. -/
def loadConfig (env : EnvVars) : RawConfig :=
  { dbPath := env.dbPath.getD "speedtest.db"
    verbose := env.verbose = some "true"
    testInterval := parseIntJS (env.testInterval.getD "1800000")
    maxRetries := parseIntJS (env.maxRetries.getD "3")
    backoffDelay := parseIntJS (env.backoffDelay.getD "5000")
    maxBackoffDelay := parseIntJS (env.maxBackoffDelay.getD "300000")
    circuitBreakerThreshold := parseIntJS (env.circuitBreakerThreshold.getD "5")
    circuitBreakerTimeout := parseIntJS (env.circuitBreakerTimeout.getD "1800000") }

/-- A JavaScript number as produced by `Number()` coercion: a rational
value or `NaN` (a non-numeric string coerces to `NaN`). -/
inductive JsNumber where
  | num (q : ℚ)
  | nan
deriving Repr, DecidableEq

/-- Model of one `z.coerce.number().positive().default(d)` field of
`configSchema` (`apps/network-monitor/src/config.ts` lines 44-52): an
absent input takes the default, `NaN` and non-positive values are
rejected. -/
def zodPositive (input : Option JsNumber) (d : ℚ) : Except String ℚ :=
  match input with
  | none => .ok d
  | some (.num q) => if 0 < q then .ok q else .error "Number must be greater than 0"
  | some .nan => .error "Expected number, received nan"

/-- The validated configuration produced by `configSchema.parse`. -/
structure ParsedConfig where
  verbose : Bool
  testInterval : ℚ
  maxRetries : ℚ
  backoffDelay : ℚ
  maxBackoffDelay : ℚ
  circuitBreakerThreshold : ℚ
  circuitBreakerTimeout : ℚ
deriving Repr, DecidableEq

/-- `configSchema.parse` (`apps/network-monitor/src/config.ts` lines
44-52): the zod schema with `verbose : z.enum(["true","false"])` and
every numeric field `z.coerce.number().positive()` with its default. -/
def configSchemaParse (verbose : Option String)
    (testInterval maxRetries backoffDelay maxBackoffDelay
      circuitBreakerThreshold circuitBreakerTimeout : Option JsNumber) :
    Except String ParsedConfig := do
  let v ← match verbose with
    | none => Except.ok false
    | some "true" => Except.ok true
    | some "false" => Except.ok false
    | some _ => Except.error "Invalid enum value"
  let ti ← zodPositive testInterval 1800000
  let mr ← zodPositive maxRetries 3
  let bd ← zodPositive backoffDelay 5000
  let mbd ← zodPositive maxBackoffDelay 300000
  let cbth ← zodPositive circuitBreakerThreshold 5
  let cbto ← zodPositive circuitBreakerTimeout 1800000
  Except.ok
    { verbose := v, testInterval := ti, maxRetries := mr, backoffDelay := bd
      maxBackoffDelay := mbd, circuitBreakerThreshold := cbth
      circuitBreakerTimeout := cbto }

/-- An environment supplying only `SPEEDTEST_INTERVAL`. -/
def envWithInterval (v : Option String) : EnvVars :=
  { dbPath := none
    verbose := none
    testInterval := v
    maxRetries := none
    backoffDelay := none
    maxBackoffDelay := none
    circuitBreakerThreshold := none
    circuitBreakerTimeout := none }

/-- The configuration `configSchema.parse({})` produces: every default. -/
def defaultParsedConfig : ParsedConfig :=
  { verbose := false
    testInterval := 1800000
    maxRetries := 3
    backoffDelay := 5000
    maxBackoffDelay := 300000
    circuitBreakerThreshold := 5
    circuitBreakerTimeout := 1800000 }

/-! ## The main-loop state machine (`start`, lines 64-108)

Each transition carries the `Date.now()` instant `t` at which the loop
body observes the clock; `now` in `LoopState` is the instant of the most
recent observation, so time is monotone along a run.  Probe cycles occur
only when the circuit is closed (when open, the loop sleeps or clears
and `continue`s). -/

/-- The loop's state: the service state plus the instant of the loop's
latest clock observation. -/
structure LoopState where
  service : ServiceState
  now : Nat
deriving Repr, DecidableEq

/-- One iteration of the `while (this.state.isRunning)` loop body,
abstracted to its five outcomes:
* `circuitClear`: lines 73-76, the circuit is open, a reset instant is
  set and has passed — close the circuit, zero the failure counter,
  clear the reset instant;
* `circuitWait`: lines 77-80, the circuit is open and the reset instant
  has not passed — sleep and re-check;
* `circuitWaitNone`: the same `else` branch when no reset instant is set
  (the guard `circuitBreakerResetTime && ...` is falsy);
* `intervalWait`: lines 84-88, circuit closed, not yet time for a test;
* `cycleSuccess`: `runTest` lines 123-126, a probe cycle succeeds —
  `lastTestTime := now`, `consecutiveFailures := 0`;
* `cycleFailure`: `runTest` line 145, a whole probe cycle fails —
  `handleError` runs. -/
inductive Step (cfg : ServiceConfig) : LoopState → LoopState → Prop where
  | circuitClear (s : LoopState) (t r : Nat) :
      s.service.isCircuitBroken = true →
      s.service.circuitBreakerResetTime = some r →
      s.now ≤ t → r ≤ t →
      Step cfg s
        ⟨{ s.service with
            isCircuitBroken := false
            consecutiveFailures := 0
            circuitBreakerResetTime := none }, t⟩
  | circuitWait (s : LoopState) (t r : Nat) :
      s.service.isCircuitBroken = true →
      s.service.circuitBreakerResetTime = some r →
      s.now ≤ t → t < r →
      Step cfg s ⟨s.service, t⟩
  | circuitWaitNone (s : LoopState) (t : Nat) :
      s.service.isCircuitBroken = true →
      s.service.circuitBreakerResetTime = none →
      s.now ≤ t →
      Step cfg s ⟨s.service, t⟩
  | intervalWait (s : LoopState) (t : Nat) :
      s.service.isCircuitBroken = false →
      s.now ≤ t →
      Step cfg s ⟨s.service, t⟩
  | cycleSuccess (s : LoopState) (t : Nat) :
      s.service.isCircuitBroken = false →
      s.now ≤ t →
      Step cfg s ⟨{ s.service with lastTestTime := t, consecutiveFailures := 0 }, t⟩
  | cycleFailure (s : LoopState) (t : Nat) :
      s.service.isCircuitBroken = false →
      s.now ≤ t →
      Step cfg s ⟨handleError cfg t s.service, t⟩

/-- Reachability from the freshly initialised service at instant `t0`. -/
def Reachable (cfg : ServiceConfig) (t0 : Nat) : LoopState → Prop :=
  Relation.ReflTransGen (Step cfg) ⟨initializedState, t0⟩

/-- The circuit-breaker invariant: an open circuit always has a reset
instant strictly in the future of the loop's latest clock observation,
and a closed circuit has a failure count below the threshold. -/
def CircuitInvariant (cfg : ServiceConfig) (s : LoopState) : Prop :=
  (s.service.isCircuitBroken = true →
    ∃ r, s.service.circuitBreakerResetTime = some r ∧ s.now < r) ∧
  (s.service.isCircuitBroken = false →
    s.service.consecutiveFailures < cfg.circuitBreakerThreshold)

/-! ## Helper lemmas -/

theorem handleError_consecutiveFailures (cfg : ServiceConfig) (now : Nat) (s : ServiceState) :
    (handleError cfg now s).consecutiveFailures = s.consecutiveFailures + 1 := by
  simp only [handleError]
  by_cases h : cfg.circuitBreakerThreshold ≤ s.consecutiveFailures + 1 <;> simp [h]

theorem handleError_lastTestTime (cfg : ServiceConfig) (now : Nat) (s : ServiceState) :
    (handleError cfg now s).lastTestTime = s.lastTestTime := by
  simp only [handleError]
  by_cases h : cfg.circuitBreakerThreshold ≤ s.consecutiveFailures + 1 <;> simp [h]

theorem handleError_isCircuitBroken (cfg : ServiceConfig) (now : Nat) (s : ServiceState) :
    (handleError cfg now s).isCircuitBroken =
      if cfg.circuitBreakerThreshold ≤ s.consecutiveFailures + 1 then true
      else s.isCircuitBroken := by
  simp only [handleError]
  by_cases h : cfg.circuitBreakerThreshold ≤ s.consecutiveFailures + 1 <;> simp [h]

theorem handleError_resetTime (cfg : ServiceConfig) (now : Nat) (s : ServiceState) :
    (handleError cfg now s).circuitBreakerResetTime =
      if cfg.circuitBreakerThreshold ≤ s.consecutiveFailures + 1 then
        some (now + cfg.circuitBreakerTimeout)
      else s.circuitBreakerResetTime := by
  simp only [handleError]
  by_cases h : cfg.circuitBreakerThreshold ≤ s.consecutiveFailures + 1 <;> simp [h]

/-- In an all-failing cycle the retry loop leaves the state untouched,
reports failure, performs `maxRetries + 1 - retryCount` further probe
calls, sleeps the backoff sequence for retries `retryCount+1 .. maxRetries`,
and never stores a result. -/
theorem runTestLoop_allFail (cfg : ServiceConfig) (times : Nat → Nat) :
    ∀ fuel rc ci s, cfg.maxRetries + 1 - rc ≤ fuel →
      (runTestLoop cfg (fun _ => false) times fuel rc ci s).1 = s ∧
      (runTestLoop cfg (fun _ => false) times fuel rc ci s).2.1 = false ∧
      execCallCount (runTestLoop cfg (fun _ => false) times fuel rc ci s).2.2
        = cfg.maxRetries + 1 - rc ∧
      sleepsOf (runTestLoop cfg (fun _ => false) times fuel rc ci s).2.2
        = (List.range' (rc + 1) (cfg.maxRetries - rc)).map (backoff cfg) ∧
      Event.store ∉ (runTestLoop cfg (fun _ => false) times fuel rc ci s).2.2 := by
  intro fuel
  induction fuel with
  | zero =>
    intro rc ci s h
    have h0 : cfg.maxRetries + 1 - rc = 0 := Nat.le_zero.mp h
    have h0' : cfg.maxRetries - rc = 0 := by omega
    simp [runTestLoop, execCallCount, sleepsOf, h0, h0']
  | succ fuel ih =>
    intro rc ci s h
    by_cases hrc : rc ≤ cfg.maxRetries
    · obtain ⟨ih1, ih2, ih3, ih4, ih5⟩ := ih (rc + 1) (ci + 1) s (by omega)
      by_cases hrc1 : rc + 1 ≤ cfg.maxRetries
      · have hn : cfg.maxRetries - rc = (cfg.maxRetries - (rc + 1)) + 1 := by omega
        simp only [runTestLoop, if_pos hrc, if_pos hrc1, Bool.false_eq_true, if_false,
          execCallCount, sleepsOf, List.filter, List.filterMap, List.length_cons,
          List.mem_cons, List.mem_append] at *
        rw [hn]
        simp_all [execCallCount, sleepsOf, List.filter_append, List.filterMap_append,
          List.range'_succ]
        try omega
      · have hrcEq : rc = cfg.maxRetries := by omega
        have hn0 : cfg.maxRetries - rc = 0 := by omega
        simp only [runTestLoop, if_pos hrc, if_neg hrc1, Bool.false_eq_true, if_false] at *
        simp_all [execCallCount, sleepsOf, hn0]
        try omega
    · have h0 : cfg.maxRetries + 1 - rc = 0 := by omega
      have h0' : cfg.maxRetries - rc = 0 := by omega
      simp [runTestLoop, if_neg hrc, execCallCount, sleepsOf, h0, h0']

/-- Every loop transition preserves the circuit-breaker invariant. -/
theorem step_preserves_invariant (cfg : ServiceConfig)
    (hthr : 0 < cfg.circuitBreakerThreshold) (htmo : 0 < cfg.circuitBreakerTimeout)
    {s s' : LoopState} (hinv : CircuitInvariant cfg s) (hstep : Step cfg s s') :
    CircuitInvariant cfg s' := by
  obtain ⟨hopen, hclosed⟩ := hinv
  cases hstep with
  | circuitClear t r hb hr hle hrt =>
    exact ⟨fun hcontra => (by simp at hcontra), fun _ => hthr⟩
  | circuitWait t r hb hr hle htr =>
    exact ⟨fun _ => ⟨r, hr, htr⟩, fun hfalse => (by rw [hb] at hfalse; cases hfalse)⟩
  | circuitWaitNone t hb hr hle =>
    obtain ⟨r, hr', _⟩ := hopen hb
    rw [hr] at hr'
    cases hr'
  | intervalWait t hb hle =>
    exact ⟨fun hcontra => (by rw [hb] at hcontra; cases hcontra), fun _ => hclosed hb⟩
  | cycleSuccess t hb hle =>
    refine ⟨fun hcontra => ?_, fun _ => hthr⟩
    simp only at hcontra
    rw [hb] at hcontra
    cases hcontra
  | cycleFailure t hb hle =>
    by_cases hth : cfg.circuitBreakerThreshold ≤ s.service.consecutiveFailures + 1
    · refine ⟨fun _ => ⟨t + cfg.circuitBreakerTimeout, ?_, Nat.lt_add_of_pos_right htmo⟩, fun hcontra => ?_⟩
      · simp only [handleError_resetTime, if_pos hth]
      · simp only [handleError_isCircuitBroken, if_pos hth] at hcontra
        cases hcontra
    · refine ⟨fun hcontra => ?_, fun _ => ?_⟩
      · simp only [handleError_isCircuitBroken, if_neg hth, hb] at hcontra
        cases hcontra
      · simp only [handleError_consecutiveFailures]
        omega

/-- Every state reachable from the initialised service satisfies the
circuit-breaker invariant. -/
theorem reachable_invariant (cfg : ServiceConfig)
    (hthr : 0 < cfg.circuitBreakerThreshold) (htmo : 0 < cfg.circuitBreakerTimeout)
    (t0 : Nat) {s : LoopState} (h : Reachable cfg t0 s) : CircuitInvariant cfg s := by
  induction h with
  | refl =>
    exact ⟨fun hb => (by simp [initializedState, initialState] at hb), fun _ => hthr⟩
  | tail hsteps hstep ih => exact step_preserves_invariant cfg hthr htmo ih hstep

/-- Spec scenario A configuration: `maxRetries = 2`, `backoffDelay =
100`, other fields at their defaults. -/
def cfgA : ServiceConfig :=
  { testInterval := 1800000
    maxRetries := 2
    backoffDelay := 100
    maxBackoffDelay := 300000
    circuitBreakerThreshold := 5
    circuitBreakerTimeout := 1800000 }

/-- The default configuration with `maxRetries` raised to 8 so the
backoff cap becomes visible. -/
def cfg5000 : ServiceConfig :=
  { testInterval := 1800000
    maxRetries := 8
    backoffDelay := 5000
    maxBackoffDelay := 300000
    circuitBreakerThreshold := 5
    circuitBreakerTimeout := 1800000 }

/-- The configuration used to witness the circuit-breaker state machine:
threshold 2, timeout 1000. -/
def cfgW : ServiceConfig :=
  { testInterval := 1800000
    maxRetries := 3
    backoffDelay := 5000
    maxBackoffDelay := 300000
    circuitBreakerThreshold := 2
    circuitBreakerTimeout := 1000 }

/-! ## Claim theorems -/

/-- C1: for positive threshold and timeout, in every reachable state an
open circuit has a reset instant set strictly in the future; the circuit
opens exactly when a whole-cycle failure raises `consecutiveFailures` to
the threshold, at which moment the reset instant becomes
`now + circuitBreakerTimeout` (a future instant); a failure that brings
the count to the threshold does open the circuit; and the only
transition that clears the circuit is the main loop's
`now ≥ circuitBreakerResetTime` check, which also zeroes
`consecutiveFailures` and clears the reset instant. -/
theorem circuitBreaker_stateMachine (cfg : ServiceConfig)
    (hthr : 0 < cfg.circuitBreakerThreshold) (htmo : 0 < cfg.circuitBreakerTimeout)
    (t0 : Nat) :
    (∀ s, Reachable cfg t0 s → s.service.isCircuitBroken = true →
      ∃ r, s.service.circuitBreakerResetTime = some r ∧ s.now < r) ∧
    (∀ s s', Reachable cfg t0 s → Step cfg s s' →
      s.service.isCircuitBroken = false → s'.service.isCircuitBroken = true →
        s'.service.consecutiveFailures = cfg.circuitBreakerThreshold ∧
        s'.service.circuitBreakerResetTime = some (s'.now + cfg.circuitBreakerTimeout) ∧
        s'.now < s'.now + cfg.circuitBreakerTimeout) ∧
    (∀ (u : ServiceState) (t : Nat), u.isCircuitBroken = false →
      cfg.circuitBreakerThreshold ≤ u.consecutiveFailures + 1 →
        (handleError cfg t u).isCircuitBroken = true ∧
        (handleError cfg t u).circuitBreakerResetTime
          = some (t + cfg.circuitBreakerTimeout)) ∧
    (∀ s s', Step cfg s s' →
      s.service.isCircuitBroken = true → s'.service.isCircuitBroken = false →
        s'.service.consecutiveFailures = 0 ∧
        s'.service.circuitBreakerResetTime = none ∧
        ∃ r, s.service.circuitBreakerResetTime = some r ∧ r ≤ s'.now) := by
  refine ⟨?_, ?_, ?_, ?_⟩
  · intro s hreach hb
    exact (reachable_invariant cfg hthr htmo t0 hreach).1 hb
  · intro s s' hreach hstep hb hb'
    have hinv := reachable_invariant cfg hthr htmo t0 hreach
    cases hstep with
    | circuitClear t r h1 h2 h3 h4 => rw [h1] at hb; cases hb
    | circuitWait t r h1 h2 h3 h4 => rw [h1] at hb; cases hb
    | circuitWaitNone t h1 h2 h3 => rw [h1] at hb; cases hb
    | intervalWait t h1 h2 =>
      dsimp only at hb'
      rw [hb] at hb'
      cases hb'
    | cycleSuccess t h1 h2 =>
      dsimp only at hb'
      rw [hb] at hb'
      cases hb'
    | cycleFailure t h1 h2 =>
      dsimp only at hb' ⊢
      rw [handleError_isCircuitBroken] at hb'
      by_cases hth : cfg.circuitBreakerThreshold ≤ s.service.consecutiveFailures + 1
      · have hlt := hinv.2 hb
        refine ⟨?_, ?_, Nat.lt_add_of_pos_right htmo⟩
        · rw [handleError_consecutiveFailures]; omega
        · rw [handleError_resetTime, if_pos hth]
      · rw [if_neg hth, hb] at hb'
        cases hb'
  · intro u t hu hth
    constructor
    · rw [handleError_isCircuitBroken, if_pos hth]
    · rw [handleError_resetTime, if_pos hth]
  · intro s s' hstep hb hb'
    cases hstep with
    | circuitClear t r h1 h2 h3 h4 =>
      exact ⟨rfl, rfl, r, h2, h4⟩
    | circuitWait t r h1 h2 h3 h4 =>
      dsimp only at hb'
      rw [h1] at hb'
      cases hb'
    | circuitWaitNone t h1 h2 h3 =>
      dsimp only at hb'
      rw [h1] at hb'
      cases hb'
    | intervalWait t h1 h2 => rw [h1] at hb; cases hb
    | cycleSuccess t h1 h2 => rw [h1] at hb; cases hb
    | cycleFailure t h1 h2 => rw [h1] at hb; cases hb

/-- C1 witness: with threshold 2 and timeout 1000, a first whole-cycle
failure at instant 3 leaves the circuit closed, and the second failure
at instant 5 opens it with failure count exactly 2 and reset instant
1005. -/
theorem circuitBreaker_stateMachine_witness :
    (handleError cfgW 5 (handleError cfgW 3 initializedState)).consecutiveFailures = 2 ∧
    (handleError cfgW 5 (handleError cfgW 3 initializedState)).circuitBreakerResetTime
      = some 1005 := by
  have h := circuitBreaker_stateMachine cfgW (by decide) (by decide) 0
  have hreach : Reachable cfgW 0 ⟨handleError cfgW 3 initializedState, 3⟩ :=
    Relation.ReflTransGen.single
      (Step.cycleFailure ⟨initializedState, 0⟩ 3 rfl (by decide))
  have hstep : Step cfgW ⟨handleError cfgW 3 initializedState, 3⟩
      ⟨handleError cfgW 5 (handleError cfgW 3 initializedState), 5⟩ :=
    Step.cycleFailure ⟨handleError cfgW 3 initializedState, 3⟩ 5 (by decide) (by decide)
  obtain ⟨hcount, hreset, _⟩ := h.2.1 _ _ hreach hstep (by decide) (by decide)
  exact ⟨hcount, hreset⟩

/-- C2: for every configuration, a probe cycle in which every
`execute()` attempt fails performs exactly `maxRetries + 1` probe calls,
applies the circuit-breaker failure handler exactly once (so
`consecutiveFailures` grows by exactly 1), leaves `lastTestTime`
unchanged and stores nothing. -/
theorem runTest_allFail (cfg : ServiceConfig) (times : Nat → Nat) (now : Nat)
    (s : ServiceState) (hdb : s.db = true) :
    (runTest cfg (fun _ => false) times now s).1 = handleError cfg now s ∧
    execCallCount (runTest cfg (fun _ => false) times now s).2 = cfg.maxRetries + 1 ∧
    (runTest cfg (fun _ => false) times now s).1.consecutiveFailures
      = s.consecutiveFailures + 1 ∧
    (runTest cfg (fun _ => false) times now s).1.lastTestTime = s.lastTestTime ∧
    Event.store ∉ (runTest cfg (fun _ => false) times now s).2 := by
  obtain ⟨h1, h2, h3, h4, h5⟩ :=
    runTestLoop_allFail cfg times (cfg.maxRetries + 1) 0 0 s (by omega)
  simp only [runTest, hdb, Bool.true_eq_false, if_false, h1, h2, Bool.false_eq_true]
  refine ⟨by trivial, by simpa using h3, ?_, ?_, h5⟩
  · rw [handleError_consecutiveFailures]
  · rw [handleError_lastTestTime]

/-- C2 witness: scenario A (`maxRetries = 2`) — three probe calls, one
failure-handler increment, nothing stored. -/
theorem runTest_allFail_witness :
    initializedState.db = true ∧
    execCallCount (runTest cfgA (fun _ => false) (fun _ => 0) 7 initializedState).2 = 3 ∧
    (runTest cfgA (fun _ => false) (fun _ => 0) 7 initializedState).1.consecutiveFailures
      = 1 ∧
    (runTest cfgA (fun _ => false) (fun _ => 0) 7 initializedState).1.lastTestTime = 0 ∧
    Event.store ∉ (runTest cfgA (fun _ => false) (fun _ => 0) 7 initializedState).2 := by
  obtain ⟨_, g2, g3, g4, g5⟩ := runTest_allFail cfgA (fun _ => 0) 7 initializedState rfl
  exact ⟨rfl, g2, g3, g4, g5⟩

/-- C3: in an all-failing cycle the delay slept before retry attempt `n`
(1-indexed) is `min(backoffDelay * 2^(n-1), maxBackoffDelay)`; when the
base delay does not exceed the cap, attempt 1 sleeps exactly the base
delay; and for base 5000 / cap 300000 the successive delays are 5000,
10000, 20000, 40000, 80000, 160000, then capped at 300000. -/
theorem runTest_backoffSequence (cfg : ServiceConfig) (times : Nat → Nat) (now : Nat)
    (s : ServiceState) (hdb : s.db = true) :
    sleepsOf (runTest cfg (fun _ => false) times now s).2
      = (List.range' 1 cfg.maxRetries).map
          (fun n => min (cfg.backoffDelay * 2 ^ (n - 1)) cfg.maxBackoffDelay) ∧
    (cfg.backoffDelay ≤ cfg.maxBackoffDelay → 1 ≤ cfg.maxRetries →
      (sleepsOf (runTest cfg (fun _ => false) times now s).2).head?
        = some cfg.backoffDelay) ∧
    (cfg.backoffDelay = 5000 → cfg.maxBackoffDelay = 300000 → cfg.maxRetries = 8 →
      sleepsOf (runTest cfg (fun _ => false) times now s).2
        = [5000, 10000, 20000, 40000, 80000, 160000, 300000, 300000]) := by
  obtain ⟨h1, h2, h3, h4, h5⟩ :=
    runTestLoop_allFail cfg times (cfg.maxRetries + 1) 0 0 s (by omega)
  have hmain : sleepsOf (runTest cfg (fun _ => false) times now s).2
      = (List.range' 1 cfg.maxRetries).map
          (fun n => min (cfg.backoffDelay * 2 ^ (n - 1)) cfg.maxBackoffDelay) := by
    simp only [runTest, hdb, Bool.true_eq_false, if_false, h2, Bool.false_eq_true]
    simpa [backoff] using h4
  refine ⟨hmain, ?_, ?_⟩
  · intro hle hR
    rw [hmain]
    obtain ⟨k, hk⟩ : ∃ k, cfg.maxRetries = k + 1 := ⟨cfg.maxRetries - 1, by omega⟩
    rw [hk, List.range'_succ]
    simp [Nat.min_eq_left hle]
  · intro hb hm hR
    rw [hmain, hb, hm, hR]
    decide

/-- C3 witness: the concrete backoff sequence for base 5000, cap 300000,
8 retries. -/
theorem runTest_backoffSequence_witness :
    initializedState.db = true ∧
    sleepsOf (runTest cfg5000 (fun _ => false) (fun _ => 0) 0 initializedState).2
      = [5000, 10000, 20000, 40000, 80000, 160000, 300000, 300000] :=
  ⟨rfl, (runTest_backoffSequence cfg5000 (fun _ => 0) 0 initializedState rfl).2.2
    rfl rfl rfl⟩

/-- C4: `determineConnectionQuality` evaluates the fixed tiers in strict
order with first match winning: "excellent" iff ping < 20 ∧ jitter < 5 ∧
packetLoss < 0.1; otherwise "good" iff ping < 50 ∧ jitter < 15 ∧
packetLoss < 1; otherwise "fair" iff ping < 100 ∧ jitter < 30 ∧
packetLoss < 2.5; otherwise "poor"; and an input with ping = 20 is never
"excellent". -/
theorem determineConnectionQuality_tiers (ping jitter packetLoss : ℚ) :
    (determineConnectionQuality ping jitter packetLoss = "excellent" ↔
      ping < 20 ∧ jitter < 5 ∧ packetLoss < 1/10) ∧
    (determineConnectionQuality ping jitter packetLoss = "good" ↔
      ¬(ping < 20 ∧ jitter < 5 ∧ packetLoss < 1/10) ∧
        (ping < 50 ∧ jitter < 15 ∧ packetLoss < 1)) ∧
    (determineConnectionQuality ping jitter packetLoss = "fair" ↔
      ¬(ping < 20 ∧ jitter < 5 ∧ packetLoss < 1/10) ∧
        ¬(ping < 50 ∧ jitter < 15 ∧ packetLoss < 1) ∧
        (ping < 100 ∧ jitter < 30 ∧ packetLoss < 5/2)) ∧
    (determineConnectionQuality ping jitter packetLoss = "poor" ↔
      ¬(ping < 20 ∧ jitter < 5 ∧ packetLoss < 1/10) ∧
        ¬(ping < 50 ∧ jitter < 15 ∧ packetLoss < 1) ∧
        ¬(ping < 100 ∧ jitter < 30 ∧ packetLoss < 5/2)) ∧
    (ping = 20 → determineConnectionQuality ping jitter packetLoss ≠ "excellent") := by
  unfold determineConnectionQuality
  split_ifs with h1 h2 h3 <;>
    refine ⟨?_, ?_, ?_, ?_, ?_⟩ <;>
    simp_all <;>
    try (intro hp; subst hp; exact absurd h1.1 (lt_irrefl 20))

/-- C4 witness: a concrete probe at the excellent boundary. -/
theorem determineConnectionQuality_tiers_witness :
    determineConnectionQuality 20 1 0 ≠ "excellent" :=
  (determineConnectionQuality_tiers 20 1 0).2.2.2.2 rfl

/-- C5: the health query is a total function of the state (it never
raises), and its status is "unhealthy" iff the service is not running or
the circuit is open (so whenever `isCircuitBroken` is true, regardless
of `consecutiveFailures` and `isRunning`); otherwise "degraded" iff
`consecutiveFailures > 0`; otherwise "healthy". -/
theorem getHealth_status_characterization (s : ServiceState) (now startTime : Nat) :
    ((getHealth s now startTime).status = "unhealthy" ↔
      s.isRunning = false ∨ s.isCircuitBroken = true) ∧
    ((getHealth s now startTime).status = "degraded" ↔
      s.isRunning = true ∧ s.isCircuitBroken = false ∧ 0 < s.consecutiveFailures) ∧
    ((getHealth s now startTime).status = "healthy" ↔
      s.isRunning = true ∧ s.isCircuitBroken = false ∧ s.consecutiveFailures = 0) ∧
    (s.isCircuitBroken = true → (getHealth s now startTime).status = "unhealthy") := by
  simp only [getHealth, determineHealthStatus]
  rcases hr : s.isRunning <;> rcases hb : s.isCircuitBroken <;>
    rcases hf : s.consecutiveFailures with _ | n <;> simp

/-- C5 witness: a stopped service with the circuit open reports
"unhealthy". -/
theorem getHealth_status_characterization_witness :
    (getHealth { initializedState with isCircuitBroken := true, consecutiveFailures := 7 }
        10 3).status = "unhealthy" :=
  (getHealth_status_characterization
    { initializedState with isCircuitBroken := true, consecutiveFailures := 7 } 10 3).2.2.2 rfl

/-- The truthiness conversion agrees with the spec's formula
`bandwidth * 8 / 1e6` with a missing bandwidth defaulting to 0. -/
theorem bandwidthToMbps_eq (b : Option BandwidthData) :
    bandwidthToMbps b = ((b.bind BandwidthData.bandwidth).getD 0) * 8 / 1000000 := by
  unfold bandwidthToMbps
  cases hb : b.bind BandwidthData.bandwidth with
  | none => simp
  | some v => by_cases hv : v = 0 <;> simp [hv]

/-- C6: `executeSpeedTest` fails exactly when the subprocess exits
non-zero, stdout is empty, or stdout is not parsable JSON; on a parsed
JSON object every missing field degrades to its default (0 for ping,
jitter, packet loss and bandwidths; "unknown" for ip, server id, isp and
the server name/country components; `null` ssid), and download/upload in
Mbps are `bandwidth * 8 / 1e6`. -/
theorem executeSpeedTest_spec (exitCode : Int) (stderr : String) (output : ProbeOutput)
    (nowIso : String) (interfaces : List (String × Bool)) (host : String) :
    ((∃ e, executeSpeedTest exitCode stderr output nowIso interfaces host
        = Except.error e) ↔
      exitCode ≠ 0 ∨ output = ProbeOutput.empty ∨ ∃ raw, output = ProbeOutput.invalidJson raw) ∧
    (∀ d, output = ProbeOutput.json d → exitCode = 0 →
      executeSpeedTest exitCode stderr output nowIso interfaces host =
        Except.ok
          { timestamp := nowIso
            ping := (d.ping.bind PingData.latency).getD 0
            download := ((d.download.bind BandwidthData.bandwidth).getD 0) * 8 / 1000000
            upload := ((d.upload.bind BandwidthData.bandwidth).getD 0) * 8 / 1000000
            network_ssid := d.interface.bind InterfaceData.name
            network_type := detectNetworkType interfaces
            ip_address := (d.interface.bind InterfaceData.externalIp).getD "unknown"
            server_id := ((d.server.bind ServerData.id).map toString).getD "unknown"
            server_location := ((d.server.bind ServerData.name).getD "unknown") ++ ", " ++
              ((d.server.bind ServerData.country).getD "unknown")
            isp := d.isp.getD "unknown"
            latency_jitter := (d.ping.bind PingData.jitter).getD 0
            packet_loss := d.packetLoss.getD 0
            connection_quality :=
              determineConnectionQuality ((d.ping.bind PingData.latency).getD 0)
                ((d.ping.bind PingData.jitter).getD 0) (d.packetLoss.getD 0)
            device_name := host }) := by
  constructor
  · by_cases hx : exitCode = 0
    · cases output <;> simp [executeSpeedTest, hx]
    · simp [executeSpeedTest, hx]
  · intro d hd hx
    subst hd hx
    simp [executeSpeedTest, bandwidthToMbps_eq]

/-- C6 witness: exit 0 with a JSON object carrying no fields yields the
all-defaults result; a non-zero exit and an empty stdout fail. -/
theorem executeSpeedTest_spec_witness :
    executeSpeedTest 0 "" (ProbeOutput.json
        { ping := none, download := none, upload := none, packetLoss := none
          isp := none, interface := none, server := none }) "t" [] "h" =
      Except.ok
        { timestamp := "t", ping := 0, download := 0, upload := 0
          network_ssid := none, network_type := "unknown", ip_address := "unknown"
          server_id := "unknown", server_location := "unknown, unknown", isp := "unknown"
          latency_jitter := 0, packet_loss := 0, connection_quality := "excellent"
          device_name := "h" } ∧
    (∃ e, executeSpeedTest 1 "boom" (ProbeOutput.json
        { ping := none, download := none, upload := none, packetLoss := none
          isp := none, interface := none, server := none }) "t" [] "h"
      = Except.error e) ∧
    (∃ e, executeSpeedTest 0 "" ProbeOutput.empty "t" [] "h" = Except.error e) := by
  refine ⟨?_, ?_, ?_⟩
  · have h := (executeSpeedTest_spec 0 ""
      (ProbeOutput.json
        { ping := none, download := none, upload := none, packetLoss := none
          isp := none, interface := none, server := none }) "t" [] "h").2 _ rfl rfl
    rw [h]
    simp only [Except.ok.injEq, SpeedTestResult.mk.injEq]
    norm_num [detectNetworkType]
    exact ⟨rfl, by norm_num [determineConnectionQuality]⟩
  · exact (executeSpeedTest_spec 1 "boom" _ "t" [] "h").1.mpr (Or.inl (by decide))
  · exact (executeSpeedTest_spec 0 "" _ "t" [] "h").1.mpr (Or.inr (Or.inl rfl))

/-- C10: while no probe has succeeded (`lastTestTime` still 0), the
health query renders `lastTestTime` as the Unix epoch in ISO-8601 —
"1970-01-01T00:00:00.000Z" — rather than null or an absent field. -/
theorem getHealth_initial_epoch (s : ServiceState) (now startTime : Nat)
    (h : s.lastTestTime = 0) :
    (getHealth s now startTime).lastTestTime = "1970-01-01T00:00:00.000Z" := by
  have hy : yearOfDays 1970 0 = (1970, 0) := by
    rw [yearOfDays.eq_def]
    norm_num [daysInYear, isLeapYear]
  have h0 : toISOString 0 = "1970-01-01T00:00:00.000Z" := by
    unfold toISOString
    norm_num [hy, monthLengths, monthOfDays, pad2, pad3]
    rfl
  simp [getHealth, h, h0]

/-- C10 witness: the freshly constructed service reports the epoch. -/
theorem getHealth_initial_epoch_witness :
    initialState.lastTestTime = 0 ∧
    (getHealth initialState 123 45).lastTestTime = "1970-01-01T00:00:00.000Z" :=
  ⟨rfl, getHealth_initial_epoch initialState 123 45 rfl⟩

/-- C7 counterexample: `detectNetworkType` is NOT invariant under
permutation of the interface list.  The lists `[eth0, wlan0]` and
`[wlan0, eth0]` are permutations of one another yet classify as
"ethernet" and "wifi" respectively: the first name matching ANY
category wins, so enumeration order matters when names of different
categories coexist. -/
theorem detectNetworkType_order_counterexample :
    List.Perm [("wlan0", true), ("eth0", true)] [("eth0", true), ("wlan0", true)] ∧
    detectNetworkType [("eth0", true), ("wlan0", true)] = "ethernet" ∧
    detectNetworkType [("wlan0", true), ("eth0", true)] = "wifi" ∧
    detectNetworkType [("eth0", true), ("wlan0", true)] ≠
      detectNetworkType [("wlan0", true), ("eth0", true)] :=
  ⟨List.Perm.swap _ _ _, by decide, by decide, by decide⟩

/-- C7 amended: `detectNetworkType` is determined by keyword matching
with the first matching interface name (in enumeration order) winning —
"wlan"/"wifi" → "wifi", "eth"/"enp" → "ethernet", "wwan"/"cellular" →
"cellular", no match → "unknown" — so the result is exactly the first
per-name category among the entries that carry addresses; the
spec's examples hold: `["lo","wlan0"]` → "wifi", `["eth0"]` →
"ethernet", `[]` → "unknown".  (The universal permutation-invariance of
the original claim is refuted by the counterexample.) -/
theorem detectNetworkType_firstMatch :
    (∀ l : List (String × Bool),
      detectNetworkType l =
        ((l.filter fun p => p.2).findSome? fun p => nameCategory p.1).getD "unknown") ∧
    detectNetworkType [("lo", true), ("wlan0", true)] = "wifi" ∧
    detectNetworkType [("eth0", true)] = "ethernet" ∧
    detectNetworkType ([] : List (String × Bool)) = "unknown" := by
  refine ⟨?_, by decide, by decide, rfl⟩
  intro l
  induction l with
  | nil => rfl
  | cons hd tl ih =>
    obtain ⟨name, addrs⟩ := hd
    cases addrs with
    | false => simpa [detectNetworkType] using ih
    | true =>
      have hstep : detectNetworkType ((name, true) :: tl) =
          match nameCategory name with
          | some c => c
          | none => detectNetworkType tl := by
        simp only [detectNetworkType, nameCategory]
        split_ifs <;> simp_all
      have hfil : ((name, true) :: tl).filter (fun p => p.2) =
          (name, true) :: tl.filter (fun p => p.2) := rfl
      rw [hstep, hfil, List.findSome?_cons]
      cases hcat : nameCategory name <;> simp [hcat, ih]

/-- C8 (divergence witness): `shutdown` does clear `isRunning` and
closes the store handle exactly once, but it then immediately issues
`process.exit(0)` — the process terminates inside the shutdown call
itself, so the main loop never gets to observe `running == false` and
any in-flight probe attempt or sleep is forcibly abandoned, contrary to
the claimed cooperative exit. -/
theorem shutdown_exits_process (s : ServiceState) (hdb : s.db = true) :
    (shutdown s).1.isRunning = false ∧
    (shutdown s).2 = [Event.closeDb, Event.processExit 0] ∧
    ((shutdown s).2.count Event.closeDb = 1) ∧
    Event.processExit 0 ∈ (shutdown s).2 := by
  simp [shutdown, closeDatabase, hdb]

/-- C8 witness: shutting down the freshly initialised service. -/
theorem shutdown_exits_process_witness :
    (shutdown initializedState).1.isRunning = false ∧
    (shutdown initializedState).2 = [Event.closeDb, Event.processExit 0] ∧
    ((shutdown initializedState).2.count Event.closeDb = 1) ∧
    Event.processExit 0 ∈ (shutdown initializedState).2 :=
  shutdown_exits_process initializedState rfl

/-- C9 (divergence witness): the daemon's `loadConfig`
(`src/config.ts`) performs no positivity validation — with
`SPEEDTEST_INTERVAL="-5"` it returns `testInterval = -5` without any
error (and a non-numeric string yields `NaN`, modelled as `none`,
equally without error), so startup proceeds into the loop; whereas the
zod `configSchema` of `apps/network-monitor/src/config.ts` — the
validation the claim describes — rejects the same non-positive and
non-numeric inputs. -/
theorem loadConfig_accepts_nonpositive :
    (loadConfig (envWithInterval (some "-5"))).testInterval = some (-5) ∧
    (loadConfig (envWithInterval (some "abc"))).testInterval = none ∧
    configSchemaParse none (some (.num (-5))) none none none none none
      = Except.error "Number must be greater than 0" ∧
    configSchemaParse none (some .nan) none none none none none
      = Except.error "Expected number, received nan" ∧
    configSchemaParse none none none none none none none
      = Except.ok defaultParsedConfig := by
  refine ⟨by decide, by decide, rfl, rfl, rfl⟩

end NetworkMonitor
